import Mathlib

/-!
Verification development for the Figma shape-generation plugin
(shape-composition engine in the plugin main file).

The embedding models the plugin code:
  - `ShapeConfig`, `MultiShapeConfig` : the request records (interfaces, lines 9-31).
    Since the requests arrive as deserialized JSON, `type` is a runtime string
    (the code dispatches on it with a `switch` that has a throwing `default`).
    JS numbers are modelled as rationals; optional fields as `Option`.
  - `colorNames`, `normalizeColor`, `hexToRgb` : color resolution (lines 117-161).
  - `generateShape` : the Shape Factory (lines 33-115).
  - `generateShapes` : the Composition Engine (lines 166-182); the JS
    `Array.prototype.sort` is specified to be a stable sort, modelled by
    `List.mergeSort` (any stable sort agrees with it on a total preorder).
  - `handleBatchMessage` / `handleSingleMessage` : the `create-shape-from-json`
    branches of the `figma.ui.onmessage` handler (lines 219-233), acting on an
    explicit page state.
Fallible code (JS `throw`) is modelled with `Except`.
-/

namespace FigmaPlugin

/-- The seven shape kinds of the closed enumeration (line 10). -/
inductive ShapeKind where
  | rectangle
  | ellipse
  | star
  | polygon
  | line
  | frame
  | text
deriving DecidableEq

/-- The string tag of each shape kind, as used by the `switch` dispatch. -/
def ShapeKind.name : ShapeKind → String
  | .rectangle => "rectangle"
  | .ellipse => "ellipse"
  | .star => "star"
  | .polygon => "polygon"
  | .line => "line"
  | .frame => "frame"
  | .text => "text"

/-- The list of supported type tags (the cases of the `switch` on `config.type`). -/
def typeNames : List String :=
  ["rectangle", "ellipse", "star", "polygon", "line", "frame", "text"]

/-- ShapeConfig (lines 9-27): one shape request, deserialized from JSON.
All numeric fields are JS numbers (modelled as rationals). -/
structure ShapeConfig where
  type : String
  x : ℚ
  y : ℚ
  width : ℚ
  height : ℚ
  fill : Option String := none
  stroke : Option String := none
  strokeWidth : Option ℚ := none
  cornerRadius : Option ℚ := none
  zIndex : Option ℚ := none
  text : Option String := none
  fontSize : Option ℚ := none
  pointCount : Option ℚ := none
  innerRadius : Option ℚ := none
  polygonPointCount : Option ℚ := none
deriving DecidableEq

/-- MultiShapeConfig (lines 29-31): a batch of shape requests. -/
structure MultiShapeConfig where
  shapes : List ShapeConfig
deriving DecidableEq

/-- An RGB triple with channels in JS-number (rational) form. -/
structure Rgb where
  r : ℚ
  g : ℚ
  b : ℚ
deriving DecidableEq

/-- The node descriptor produced by the factory: the observable attributes the
plugin sets on a created Figma `SceneNode`. A `none` field means the attribute
was left at its host default (never assigned by the plugin). -/
structure SceneNode where
  kind : ShapeKind
  x : ℚ := 0
  y : ℚ := 0
  width : ℚ := 100
  height : ℚ := 100
  fills : Option Rgb := none
  strokes : Option Rgb := none
  strokeWeight : Option ℚ := none
  cornerRadius : Option ℚ := none
  pointCount : Option ℚ := none
  innerRadius : Option ℚ := none
  characters : Option String := none
  fontSize : Option ℚ := none
deriving DecidableEq

/-- The errors thrown by the plugin code: the `switch` default (line 79,
UnsupportedShapeType) and the hex parser failure (line 154, InvalidColor). -/
inductive ShapeError where
  | unsupportedShapeType (t : String)
  | invalidColor (hex : String)
deriving DecidableEq

/-- JS truthiness of an optional number: `undefined` and `0` are falsy. -/
def truthyNum : Option ℚ → Bool
  | none => false
  | some v => decide (v ≠ 0)

/-- JS truthiness of an optional string: `undefined` and `""` are falsy. -/
def truthyStr : Option String → Bool
  | none => false
  | some s => decide (s ≠ "")

/-- Color name to hex mapping (lines 118-140), in source order. -/
def colorNames : List (String × String) :=
  [("transparent", "transparent"),
   ("red", "#ff0000"),
   ("green", "#00ff00"),
   ("blue", "#0000ff"),
   ("black", "#000000"),
   ("white", "#ffffff"),
   ("gray", "#808080"),
   ("grey", "#808080"),
   ("yellow", "#ffff00"),
   ("orange", "#ffa500"),
   ("purple", "#800080"),
   ("pink", "#ffc0cb"),
   ("brown", "#a52a2a"),
   ("primary", "#007bff"),
   ("secondary", "#6c757d"),
   ("success", "#28a745"),
   ("danger", "#dc3545"),
   ("warning", "#ffc107"),
   ("info", "#17a2b8"),
   ("light", "#f8f9fa"),
   ("dark", "#343a40")]

/-- Model of JS `String.prototype.toLowerCase` (ASCII, which covers all inputs
the color table distinguishes). -/
def toLowerStr (s : String) : String := ⟨s.data.map Char.toLower⟩

/-- Whether the string starts with the character `#` (JS startsWith with a hash argument). -/
def startsWithHash (s : String) : Bool :=
  match s.data with
  | '#' :: _ => true
  | _ => false

/-- normalizeColor (lines 143-148): convert a color name or hex to hex.
The JS `if (colorNames[color.toLowerCase()])` tests the looked-up value for
truthiness, hence the emptiness check on a successful lookup. -/
def normalizeColor (color : String) : String :=
  if color = "transparent" then "transparent"
  else if startsWithHash color = true then color
  else
    match colorNames.lookup (toLowerStr color) with
    | some hex => if hex = "" then color else hex
    | none => color

/-- Whether a character is in the regex class `[a-f\d]` under the `i` flag,
by character code: digits 48-57, lowercase a-f 97-102, uppercase A-F 65-70. -/
def isHexDigit (c : Char) : Bool :=
  (decide (48 ≤ c.toNat) && decide (c.toNat ≤ 57)) ||
  (decide (97 ≤ c.toNat) && decide (c.toNat ≤ 102)) ||
  (decide (65 ≤ c.toNat) && decide (c.toNat ≤ 70))

/-- The numeric value of a hex digit character (as `parseInt(-, 16)` assigns it). -/
def hexDigitVal (c : Char) : ℕ :=
  if 48 ≤ c.toNat ∧ c.toNat ≤ 57 then c.toNat - 48
  else if 97 ≤ c.toNat ∧ c.toNat ≤ 102 then c.toNat - 97 + 10
  else if 65 ≤ c.toNat ∧ c.toNat ≤ 70 then c.toNat - 65 + 10
  else 0

/-- The value of a two-digit hex group (`parseInt(result[i], 16)`). -/
def hexPairVal (c d : Char) : ℕ := 16 * hexDigitVal c + hexDigitVal d

/-- The `#?` part of the regex: an optional leading `#` is dropped. -/
def stripHash (l : List Char) : List Char :=
  match l with
  | '#' :: rest => rest
  | other => other

/-- The regex match of line 152: `^#?([a-f\d]{2})([a-f\d]{2})([a-f\d]{2})$/i`
applied to the string, returning the three parsed byte groups on a match. -/
def hexMatch (hex : String) : Option (ℕ × ℕ × ℕ) :=
  match stripHash hex.data with
  | [c1, c2, c3, c4, c5, c6] =>
    if isHexDigit c1 && isHexDigit c2 && isHexDigit c3 &&
       isHexDigit c4 && isHexDigit c5 && isHexDigit c6 then
      some (hexPairVal c1 c2, hexPairVal c3 c4, hexPairVal c5 c6)
    else none
  | _ => none

/-- hexToRgb (lines 151-161): convert a hex color to an RGB triple with each
channel divided by 255; a failed regex match throws `Invalid hex color`. -/
def hexToRgb (hex : String) : Except ShapeError Rgb :=
  match hexMatch hex with
  | some (n1, n2, n3) =>
    .ok ⟨(n1 : ℚ) / 255, (n2 : ℚ) / 255, (n3 : ℚ) / 255⟩
  | none => .error (.invalidColor hex)

/-- Modelled from the spec and the Figma host API (external to this repository):
the capability test for the fills attribute (written with the JS in operator). All seven produced node kinds carry the
`fills` attribute. -/
def supportsFills (_ : ShapeKind) : Bool := true

/-- The capability test for the strokes attribute; true for all seven kinds. -/
def supportsStrokes (_ : ShapeKind) : Bool := true

/-- The capability test for the strokeWeight attribute; true for all seven kinds. -/
def supportsStrokeWeight (_ : ShapeKind) : Bool := true

/-- The capability test for the resize method; true for all seven kinds. -/
def supportsResize (_ : ShapeKind) : Bool := true

/-- The base-shape `switch` of generateShape (lines 37-80): dispatch on the
type tag, apply the kind-specific optional fields (cornerRadius on rectangles
via an explicit `undefined` check; pointCount, innerRadius, text characters and
fontSize via JS truthiness checks), and throw `UnsupportedShapeType` on the
default branch. The font load for text (line 71) is an awaited host call
modelled as succeeding. -/
def mkBaseNode (config : ShapeConfig) : Except ShapeError SceneNode :=
  if config.type = "rectangle" then
    .ok { kind := .rectangle, cornerRadius := config.cornerRadius }
  else if config.type = "ellipse" then
    .ok { kind := .ellipse }
  else if config.type = "star" then
    .ok { kind := .star,
          pointCount := if truthyNum config.pointCount then config.pointCount else none,
          innerRadius := if truthyNum config.innerRadius then config.innerRadius else none }
  else if config.type = "polygon" then
    .ok { kind := .polygon,
          pointCount := if truthyNum config.polygonPointCount then config.polygonPointCount else none }
  else if config.type = "line" then
    .ok { kind := .line }
  else if config.type = "frame" then
    .ok { kind := .frame }
  else if config.type = "text" then
    .ok { kind := .text,
          characters := if truthyStr config.text then config.text else none,
          fontSize := if truthyNum config.fontSize then config.fontSize else none }
  else
    .error (.unsupportedShapeType config.type)

/-- The fill-color step of generateShape (lines 92-100): gate on truthiness of
`config.fill`, inequality with the literal transparent and the fills capability;
normalize; skip when normalization yields transparent; otherwise parse the
hex and produce the solid paint. -/
def resolveFillPaint (kind : ShapeKind) (fill : Option String) :
    Except ShapeError (Option Rgb) :=
  match fill with
  | none => .ok none
  | some f =>
    if f ≠ "" ∧ f ≠ "transparent" ∧ supportsFills kind = true then
      let hexColor := normalizeColor f
      if hexColor ≠ "transparent" then
        match hexToRgb hexColor with
        | .ok rgb => .ok (some rgb)
        | .error e => .error e
      else .ok none
    else .ok none

/-- The stroke-color step of generateShape (lines 103-108): gate on truthiness
of `config.stroke` and the `strokes` capability, then parse the normalized
color (no transparent short-circuit exists on this path in the source). -/
def resolveStrokePaint (kind : ShapeKind) (stroke : Option String) :
    Except ShapeError (Option Rgb) :=
  match stroke with
  | none => .ok none
  | some s =>
    if s ≠ "" ∧ supportsStrokes kind = true then
      match hexToRgb (normalizeColor s) with
      | .ok rgb => .ok (some rgb)
      | .error e => .error e
    else .ok none

/-- generateShape (lines 33-115): build the base node, apply position (lines
83-84), apply size when the kind supports resizing (lines 87-89), apply the
fill paint (lines 92-100), apply the stroke paint and, inside the stroke
block, the stroke weight when `config.strokeWidth` is truthy and the kind has
the attribute (lines 103-112). -/
def generateShape (config : ShapeConfig) : Except ShapeError SceneNode :=
  match mkBaseNode config with
  | .error e => .error e
  | .ok node0 =>
    let node1 := { node0 with x := config.x, y := config.y }
    let node2 :=
      if supportsResize node1.kind = true then
        { node1 with width := config.width, height := config.height }
      else node1
    match resolveFillPaint node2.kind config.fill with
    | .error e => .error e
    | .ok fillPaint =>
      let node3 :=
        match fillPaint with
        | some rgb => { node2 with fills := some rgb }
        | none => node2
      match resolveStrokePaint node3.kind config.stroke with
      | .error e => .error e
      | .ok strokePaint =>
        let node4 :=
          match strokePaint with
          | some rgb => { node3 with strokes := some rgb }
          | none => node3
        let node5 :=
          if strokePaint.isSome = true ∧ truthyNum config.strokeWidth = true ∧
             supportsStrokeWeight node4.kind = true then
            { node4 with strokeWeight := config.strokeWidth }
          else node4
        .ok node5

/-- The sort key of the comparator (lines 171-172): `a.zIndex ?? 0`. -/
def zOf (c : ShapeConfig) : ℚ := c.zIndex.getD 0

/-- The ascending order induced by the comparator `(a, b) => aZ - bZ`. -/
def zLe (a b : ShapeConfig) : Bool := decide (zOf a ≤ zOf b)

/-- The sort of lines 170-174: JS `Array.prototype.sort` is required to be
stable, and a stable sort by a total preorder is unique, so it is modelled by
`List.mergeSort` with the order given by the comparator. -/
def sortShapes (l : List ShapeConfig) : List ShapeConfig := l.mergeSort zLe

/-- The loop of lines 176-179: generate each shape in sorted order,
accumulating the nodes; a thrown error aborts the whole loop. -/
def generateShapesAux : List ShapeConfig → Except ShapeError (List SceneNode)
  | [] => .ok []
  | c :: rest =>
    match generateShape c with
    | .error e => .error e
    | .ok n =>
      match generateShapesAux rest with
      | .error e => .error e
      | .ok ns => .ok (n :: ns)

/-- generateShapes (lines 166-182): sort the batch by zIndex, then generate
every shape in sorted order. -/
def generateShapes (config : MultiShapeConfig) : Except ShapeError (List SceneNode) :=
  generateShapesAux (sortShapes config.shapes)

/-- The host-visible page state the message handler mutates: the children of
`figma.currentPage` and the current selection. -/
structure PageState where
  children : List SceneNode := []
  selection : List SceneNode := []
deriving DecidableEq

/-- The batch branch of the `create-shape-from-json` message (lines 221-225):
generate all shapes, then append each produced node to the page and select
them. A thrown error propagates before any page mutation. -/
def handleBatchMessage (page : PageState) (config : MultiShapeConfig) :
    Except ShapeError PageState :=
  match generateShapes config with
  | .error e => .error e
  | .ok ns => .ok { children := page.children ++ ns, selection := ns }

/-- The single-shape branch of the `create-shape-from-json` message (lines
227-231): generate one shape, append it and select it. -/
def handleSingleMessage (page : PageState) (config : ShapeConfig) :
    Except ShapeError PageState :=
  match generateShape config with
  | .error e => .error e
  | .ok n => .ok { children := page.children ++ [n], selection := [n] }

/-- Modelled from the spec: the domain of color resolution, the strings
matching the pattern of an optional `#` followed by exactly six hex digits
(case-insensitive). -/
def isHexColorFormat (s : String) : Bool :=
  decide ((stripHash s.data).length = 6) && (stripHash s.data).all isHexDigit

deriving instance DecidableEq for Except

/-- Concrete configurations and expected nodes used by the witness theorems. -/
def rect0 : ShapeConfig := { type := "rectangle", x := 0, y := 0, width := 10, height := 10 }

def batch2 : MultiShapeConfig :=
  ⟨[{ type := "star", x := 0, y := 0, width := 20, height := 20, zIndex := some 2 },
    { type := "ellipse", x := 1, y := 1, width := 30, height := 30, zIndex := some 1 }]⟩

def batchNodes2 : List SceneNode :=
  [{ kind := .ellipse, x := 1, y := 1, width := 30, height := 30 },
   { kind := .star, x := 0, y := 0, width := 20, height := 20 }]

def cfgKite : ShapeConfig := { type := "kite", x := 0, y := 0, width := 10, height := 10 }

def batchKite : MultiShapeConfig := ⟨[rect0, cfgKite]⟩

def cfgC9w : ShapeConfig :=
  { type := "rectangle", x := 0, y := 0, width := 10, height := 10,
    stroke := some "red", strokeWidth := some 5, cornerRadius := some 0 }

def nodeC9w : SceneNode :=
  { kind := .rectangle, x := 0, y := 0, width := 10, height := 10,
    strokes := some ⟨1, 0, 0⟩, strokeWeight := some 5, cornerRadius := some 0 }

def nodeRectCr0 : SceneNode :=
  { kind := .rectangle, x := 0, y := 0, width := 10, height := 10, cornerRadius := some 0 }


@[simp] lemma supportsFills_eq_true (k : ShapeKind) : supportsFills k = true := rfl

@[simp] lemma supportsStrokes_eq_true (k : ShapeKind) : supportsStrokes k = true := rfl

@[simp] lemma supportsStrokeWeight_eq_true (k : ShapeKind) : supportsStrokeWeight k = true := rfl

@[simp] lemma supportsResize_eq_true (k : ShapeKind) : supportsResize k = true := rfl

lemma zLe_trans : ∀ (a b c : ShapeConfig), zLe a b → zLe b c → zLe a c := by
  intro a b c hab hbc
  simp only [zLe, decide_eq_true_eq] at hab hbc ⊢
  exact le_trans hab hbc

lemma zLe_total : ∀ (a b : ShapeConfig), zLe a b || zLe b a := by
  intro a b
  simp only [zLe, Bool.or_eq_true, decide_eq_true_eq]
  exact le_total _ _

lemma sortShapes_filter_zOf (l : List ShapeConfig) (z : ℚ) :
    (sortShapes l).filter (fun c => decide (zOf c = z)) =
      l.filter (fun c => decide (zOf c = z)) := by
  set p : ShapeConfig → Bool := fun c => decide (zOf c = z) with hp
  have hpw : (l.filter p).Pairwise (fun a b => zLe a b = true) := by
    apply List.pairwise_of_forall_mem_list
    intro a ha b hb
    have h1 := List.of_mem_filter ha
    have h2 := List.of_mem_filter hb
    simp only [hp, decide_eq_true_eq] at h1 h2
    simp only [zLe, decide_eq_true_eq, h1, h2, le_refl]
  have hsub : List.Sublist (l.filter p) (List.mergeSort l zLe) :=
    List.sublist_mergeSort zLe_trans zLe_total hpw (List.filter_sublist l)
  have hsub2 : List.Sublist ((l.filter p).filter p) ((List.mergeSort l zLe).filter p) :=
    hsub.filter p
  have hff : (l.filter p).filter p = l.filter p :=
    List.filter_eq_self.mpr fun a ha => List.of_mem_filter ha
  rw [hff] at hsub2
  have hperm : List.Perm ((List.mergeSort l zLe).filter p) (l.filter p) :=
    (List.mergeSort_perm l zLe).filter p
  have hgoal := hsub2.eq_of_length hperm.length_eq.symm
  exact hgoal.symm

/-- C1: the composition engine orders batch entries by layerIndex (zIndex)
ascending with missing values defaulting to 0, and the sort is stable: entries
with equal layerIndex keep their input relative order (stated as: for every
key value, filtering the sorted batch to that key gives exactly the input
subsequence with that key, for every input batch, hence for all permutations
of the other entries). -/
theorem c1_stable_sort_by_layerIndex (cfg : MultiShapeConfig) :
    List.Pairwise (fun a b => zOf a ≤ zOf b) (sortShapes cfg.shapes) ∧
    (∀ z : ℚ, (sortShapes cfg.shapes).filter (fun c => decide (zOf c = z)) =
      cfg.shapes.filter (fun c => decide (zOf c = z))) ∧
    generateShapes cfg = generateShapesAux (sortShapes cfg.shapes) := by
  refine ⟨?_, fun z => sortShapes_filter_zOf cfg.shapes z, rfl⟩
  have h := List.sorted_mergeSort zLe_trans zLe_total cfg.shapes
  have h2 : (sortShapes cfg.shapes).Pairwise (fun a b => zLe a b = true) := h
  exact h2.imp (by intro a b hab; simpa [zLe] using hab)


lemma mkBaseNode_fields {c : ShapeConfig} {n : SceneNode} (h : mkBaseNode c = .ok n) :
    n.kind.name = c.type ∧ n.fills = none ∧ n.strokes = none ∧ n.strokeWeight = none ∧
    n.cornerRadius = (if n.kind = ShapeKind.rectangle then c.cornerRadius else none) := by
  unfold mkBaseNode at h
  split_ifs at h <;> cases h <;> simp_all [ShapeKind.name]

lemma generateShape_eq (c : ShapeConfig) :
    generateShape c =
      match mkBaseNode c with
      | .error e => .error e
      | .ok node0 =>
        match resolveFillPaint node0.kind c.fill with
        | .error e => .error e
        | .ok fp =>
          match resolveStrokePaint node0.kind c.stroke with
          | .error e => .error e
          | .ok sp =>
            .ok { node0 with
                  x := c.x, y := c.y, width := c.width, height := c.height,
                  fills := (match fp with | some rgb => some rgb | none => node0.fills),
                  strokes := (match sp with | some rgb => some rgb | none => node0.strokes),
                  strokeWeight :=
                    (if sp.isSome = true ∧ truthyNum c.strokeWidth = true ∧
                        supportsStrokeWeight node0.kind = true
                     then c.strokeWidth else node0.strokeWeight) } := by
  unfold generateShape
  cases hb : mkBaseNode c with
  | error e => rfl
  | ok node0 =>
    simp only [supportsResize_eq_true, eq_self_iff_true, if_true]
    cases hf : resolveFillPaint node0.kind c.fill with
    | error e => rfl
    | ok fp =>
      dsimp only
      cases fp with
      | none =>
        dsimp only
        cases hs : resolveStrokePaint node0.kind c.stroke with
        | error e => rfl
        | ok sp => cases sp <;> simp <;> split <;> rfl
      | some rgb =>
        dsimp only
        cases hs : resolveStrokePaint node0.kind c.stroke with
        | error e => rfl
        | ok sp => cases sp <;> simp <;> split <;> rfl

lemma generateShape_ok_fields {c : ShapeConfig} {n : SceneNode}
    (h : generateShape c = .ok n) :
    ∃ fp sp,
      resolveFillPaint n.kind c.fill = .ok fp ∧
      resolveStrokePaint n.kind c.stroke = .ok sp ∧
      n.kind.name = c.type ∧
      n.x = c.x ∧ n.y = c.y ∧ n.width = c.width ∧ n.height = c.height ∧
      n.fills = fp ∧ n.strokes = sp ∧
      n.strokeWeight = (if sp.isSome = true ∧ truthyNum c.strokeWidth = true
                        then c.strokeWidth else none) ∧
      n.cornerRadius = (if n.kind = ShapeKind.rectangle then c.cornerRadius else none) := by
  rw [generateShape_eq] at h
  cases hb : mkBaseNode c with
  | error e => rw [hb] at h; cases h
  | ok node0 =>
    rw [hb] at h
    dsimp only at h
    obtain ⟨hname, hfills0, hstrokes0, hsw0, hcr0⟩ := mkBaseNode_fields hb
    cases hf : resolveFillPaint node0.kind c.fill with
    | error e => rw [hf] at h; cases h
    | ok fp =>
      rw [hf] at h
      dsimp only at h
      cases hs : resolveStrokePaint node0.kind c.stroke with
      | error e => rw [hs] at h; cases h
      | ok sp =>
        rw [hs] at h
        dsimp only at h
        cases h
        refine ⟨fp, sp, hf, hs, hname, rfl, rfl, rfl, rfl, ?_, ?_, ?_, ?_⟩
        · cases fp with
          | some rgb => rfl
          | none => exact hfills0
        · cases sp with
          | some rgb => rfl
          | none => exact hstrokes0
        · simp only [supportsStrokeWeight_eq_true, eq_self_iff_true, and_true, hsw0]
        · exact hcr0

lemma generateShapesAux_ok {l : List ShapeConfig} {ns : List SceneNode}
    (h : generateShapesAux l = .ok ns) :
    ns.length = l.length ∧
    ∀ i (hi : i < ns.length) (hl : i < l.length),
      (ns.get ⟨i, hi⟩).kind.name = (l.get ⟨i, hl⟩).type := by
  induction l generalizing ns with
  | nil =>
    cases h
    exact ⟨rfl, fun i hi hl => absurd hi (by simp)⟩
  | cons c rest ih =>
    unfold generateShapesAux at h
    cases hc : generateShape c with
    | error e => rw [hc] at h; cases h
    | ok m =>
      rw [hc] at h
      dsimp only at h
      cases hr : generateShapesAux rest with
      | error e => rw [hr] at h; cases h
      | ok ms =>
        rw [hr] at h
        dsimp only at h
        cases h
        obtain ⟨ihlen, ihget⟩ := ih hr
        obtain ⟨fp, sp, _, _, hname, _⟩ := generateShape_ok_fields hc
        refine ⟨by simp [ihlen], ?_⟩
        intro i hi hl
        cases i with
        | zero => simpa using hname
        | succ j =>
          simp only [List.get_cons_succ]
          exact ihget j (by simpa using hi) (by simpa using hl)

/-- C2: on success the engine returns exactly one node per batch entry, and
the shape kind of the i-th returned node equals the type tag of the i-th entry
of the sorted input. -/
theorem c2_length_and_kind_mapping (cfg : MultiShapeConfig) (ns : List SceneNode)
    (h : generateShapes cfg = .ok ns) :
    ns.length = cfg.shapes.length ∧
    ∀ i (hi : i < ns.length) (hs : i < (sortShapes cfg.shapes).length),
      (ns.get ⟨i, hi⟩).kind.name = ((sortShapes cfg.shapes).get ⟨i, hs⟩).type := by
  unfold generateShapes at h
  obtain ⟨hlen, hget⟩ := generateShapesAux_ok h
  refine ⟨?_, hget⟩
  rw [hlen, sortShapes, List.length_mergeSort]

/-- Witness for C2 at a concrete two-element batch. -/
theorem c2_witness :
    generateShapes batch2 = .ok batchNodes2 ∧
    batchNodes2.length = batch2.shapes.length ∧
    (batchNodes2.get ⟨0, by with_unfolding_all decide⟩).kind.name =
      ((sortShapes batch2.shapes).get ⟨0, by with_unfolding_all decide⟩).type := by
  have h0 : generateShapes batch2 = .ok batchNodes2 := by with_unfolding_all decide
  have h := c2_length_and_kind_mapping batch2 batchNodes2 h0
  exact ⟨h0, h.1, h.2 0 (by with_unfolding_all decide) (by with_unfolding_all decide)⟩

lemma generateShapesAux_error_of_mem {l : List ShapeConfig} {c : ShapeConfig} {e : ShapeError}
    (hc : c ∈ l) (h : generateShape c = .error e) :
    ∃ e2, generateShapesAux l = .error e2 := by
  induction l with
  | nil => cases hc
  | cons a rest ih =>
    unfold generateShapesAux
    cases ha : generateShape a with
    | error e2 => exact ⟨e2, rfl⟩
    | ok m =>
      rcases List.mem_cons.mp hc with rfl | hmem
      · rw [h] at ha; cases ha
      · obtain ⟨e2, h2⟩ := ih hmem
        exact ⟨e2, by simp only [h2]⟩

/-- C3: the batch operation is fail-fast and atomic: if the factory fails on
any entry of the batch, the whole generateShapes call fails and the message
handler performs no page mutation (no append, no selection). -/
theorem c3_fail_fast_atomic (page : PageState) (cfg : MultiShapeConfig) (c : ShapeConfig)
    (e : ShapeError) (hc : c ∈ cfg.shapes) (h : generateShape c = .error e) :
    ∃ e2, generateShapes cfg = .error e2 ∧ handleBatchMessage page cfg = .error e2 := by
  have hmem : c ∈ sortShapes cfg.shapes := by
    rw [sortShapes]; exact List.mem_mergeSort.mpr hc
  obtain ⟨e2, h2⟩ := generateShapesAux_error_of_mem hmem h
  have hg : generateShapes cfg = .error e2 := h2
  refine ⟨e2, hg, ?_⟩
  unfold handleBatchMessage
  rw [hg]

/-- Witness for C3: a batch with a valid rectangle and an unsupported kite. -/
theorem c3_witness :
    cfgKite ∈ batchKite.shapes ∧
    generateShape cfgKite = .error (.unsupportedShapeType "kite") ∧
    generateShapes batchKite = .error (.unsupportedShapeType "kite") ∧
    handleBatchMessage {} batchKite = .error (.unsupportedShapeType "kite") := by
  obtain ⟨e2, h1, h2⟩ := c3_fail_fast_atomic {} batchKite cfgKite (.unsupportedShapeType "kite")
    (by with_unfolding_all decide) (by with_unfolding_all decide)
  have h3 : generateShapes batchKite = .error (.unsupportedShapeType "kite") := by
    with_unfolding_all decide
  rw [h3] at h1
  injection h1 with h4
  subst h4
  exact ⟨by with_unfolding_all decide, by with_unfolding_all decide, h3, h2⟩

/-- C4: a configuration whose type tag is outside the closed enumeration makes
generateShape fail with UnsupportedShapeType and no node, and its membership in
a batch makes the whole batch produce no output. -/
theorem c4_unsupported_type (c : ShapeConfig) (cfg : MultiShapeConfig)
    (h : c.type ∉ typeNames) :
    generateShape c = .error (.unsupportedShapeType c.type) ∧
    (c ∈ cfg.shapes → ∃ e, generateShapes cfg = .error e) := by
  simp only [typeNames, List.mem_cons, List.not_mem_nil, or_false, not_or] at h
  obtain ⟨h1, h2, h3, h4, h5, h6, h7⟩ := h
  have hgen : generateShape c = .error (.unsupportedShapeType c.type) := by
    have hmk : mkBaseNode c = .error (.unsupportedShapeType c.type) := by
      unfold mkBaseNode
      rw [if_neg h1, if_neg h2, if_neg h3, if_neg h4, if_neg h5, if_neg h6, if_neg h7]
    rw [generateShape_eq, hmk]
  refine ⟨hgen, fun hc => ?_⟩
  have hmem : c ∈ sortShapes cfg.shapes := by
    rw [sortShapes]; exact List.mem_mergeSort.mpr hc
  exact generateShapesAux_error_of_mem hmem hgen

/-- Witness for C4 at the concrete "kite" configuration inside a batch with a
valid sibling. -/
theorem c4_witness :
    cfgKite.type ∉ typeNames ∧
    generateShape cfgKite = .error (.unsupportedShapeType cfgKite.type) ∧
    generateShapes batchKite = .error (.unsupportedShapeType "kite") := by
  have h := c4_unsupported_type cfgKite batchKite (by with_unfolding_all decide)
  obtain ⟨e, he⟩ := h.2 (by with_unfolding_all decide)
  exact ⟨by with_unfolding_all decide, h.1, by with_unfolding_all decide⟩

lemma hexDigitVal_le_15 {c : Char} (h : isHexDigit c = true) : hexDigitVal c ≤ 15 := by
  unfold isHexDigit at h
  unfold hexDigitVal
  simp only [Bool.or_eq_true, Bool.and_eq_true, decide_eq_true_eq] at h
  generalize hm : c.toNat = m at h ⊢
  rcases h with ⟨h1, h2⟩ | ⟨h1, h2⟩ | ⟨h1, h2⟩ <;> split_ifs <;> omega

lemma hexPairVal_le_255 {c d : Char} (hc : isHexDigit c = true) (hd : isHexDigit d = true) :
    hexPairVal c d ≤ 255 := by
  have h1 := hexDigitVal_le_15 hc
  have h2 := hexDigitVal_le_15 hd
  unfold hexPairVal
  omega

lemma isHexColorFormat_elim {s : String} (h : isHexColorFormat s = true) :
    ∃ c1 c2 c3 c4 c5 c6, stripHash s.data = [c1, c2, c3, c4, c5, c6] ∧
      isHexDigit c1 = true ∧ isHexDigit c2 = true ∧ isHexDigit c3 = true ∧
      isHexDigit c4 = true ∧ isHexDigit c5 = true ∧ isHexDigit c6 = true := by
  unfold isHexColorFormat at h
  simp only [Bool.and_eq_true, decide_eq_true_eq, List.all_eq_true] at h
  obtain ⟨hlen, hall⟩ := h
  rcases hl : stripHash s.data with _ | ⟨c1, _ | ⟨c2, _ | ⟨c3, _ | ⟨c4, _ | ⟨c5, _ | ⟨c6, _ | ⟨c7, rest⟩⟩⟩⟩⟩⟩⟩ <;>
    rw [hl] at hlen hall <;> simp only [List.length] at hlen <;> try omega
  refine ⟨c1, c2, c3, c4, c5, c6, rfl, ?_, ?_, ?_, ?_, ?_, ?_⟩ <;>
    apply hall <;> simp

lemma hexToRgb_of_format {s : String} (h : isHexColorFormat s = true) :
    ∃ n1 n2 n3 : ℕ, n1 ≤ 255 ∧ n2 ≤ 255 ∧ n3 ≤ 255 ∧
      hexMatch s = some (n1, n2, n3) ∧
      hexToRgb s = .ok ⟨(n1 : ℚ)/255, (n2 : ℚ)/255, (n3 : ℚ)/255⟩ := by
  obtain ⟨c1, c2, c3, c4, c5, c6, hl, h1, h2, h3, h4, h5, h6⟩ := isHexColorFormat_elim h
  have hm : hexMatch s = some (hexPairVal c1 c2, hexPairVal c3 c4, hexPairVal c5 c6) := by
    unfold hexMatch
    rw [hl]
    simp [h1, h2, h3, h4, h5, h6]
  refine ⟨hexPairVal c1 c2, hexPairVal c3 c4, hexPairVal c5 c6,
    hexPairVal_le_255 h1 h2, hexPairVal_le_255 h3 h4, hexPairVal_le_255 h5 h6, hm, ?_⟩
  unfold hexToRgb
  rw [hm]

lemma div255_nonneg (n : ℕ) : 0 ≤ (n : ℚ)/255 := by positivity

lemma div255_le_one {n : ℕ} (h : n ≤ 255) : (n : ℚ)/255 ≤ 1 := by
  rw [div_le_one (by norm_num)]
  exact_mod_cast h

lemma div255_inj {a b : ℕ} (h : (a : ℚ)/255 = (b : ℚ)/255) : a = b := by
  field_simp at h
  exact h

lemma normalizeColor_of_toLower {s key val : String} (hkey : key ≠ "transparent")
    (hh : startsWithHash s = false) (hlow : toLowerStr s = key)
    (hfound : colorNames.lookup key = some val) (hval : val ≠ "") :
    normalizeColor s = val := by
  have hs : s ≠ "transparent" := by
    intro hse
    subst hse
    have ht : toLowerStr "transparent" = "transparent" := by decide
    rw [ht] at hlow
    exact hkey hlow.symm
  unfold normalizeColor
  rw [if_neg hs]
  simp only [hh, Bool.false_eq_true, if_false]
  rw [hlow, hfound]
  dsimp only
  rw [if_neg hval]

/-- C5: color resolution is total on its hex domain (every string that is an
optional hash followed by six case-insensitive hex digits parses to the triple
of its three byte groups each divided by 255, all in [0,1]), injective up to
the parsed byte content, and every name of the fixed color table resolves to
the same triple as its hex value, with case-insensitive name lookup. -/
theorem c5_color_resolution :
    (∀ s : String, isHexColorFormat s = true →
      ∃ n1 n2 n3 : ℕ, n1 ≤ 255 ∧ n2 ≤ 255 ∧ n3 ≤ 255 ∧
        hexMatch s = some (n1, n2, n3) ∧
        hexToRgb s = .ok ⟨(n1 : ℚ)/255, (n2 : ℚ)/255, (n3 : ℚ)/255⟩ ∧
        0 ≤ (n1 : ℚ)/255 ∧ (n1 : ℚ)/255 ≤ 1 ∧ 0 ≤ (n2 : ℚ)/255 ∧ (n2 : ℚ)/255 ≤ 1 ∧
        0 ≤ (n3 : ℚ)/255 ∧ (n3 : ℚ)/255 ≤ 1) ∧
    (∀ s1 s2 : String, isHexColorFormat s1 = true → isHexColorFormat s2 = true →
      (hexToRgb s1 = hexToRgb s2 ↔ hexMatch s1 = hexMatch s2)) ∧
    (∀ p ∈ colorNames, p.2 ≠ "transparent" →
      hexToRgb (normalizeColor p.1) = hexToRgb p.2 ∧
      (∀ s : String, startsWithHash s = false → toLowerStr s = p.1 →
        normalizeColor s = p.2)) := by
  refine ⟨?_, ?_, ?_⟩
  · intro s h
    obtain ⟨n1, n2, n3, hb1, hb2, hb3, hm, hr⟩ := hexToRgb_of_format h
    exact ⟨n1, n2, n3, hb1, hb2, hb3, hm, hr, div255_nonneg n1, div255_le_one hb1,
      div255_nonneg n2, div255_le_one hb2, div255_nonneg n3, div255_le_one hb3⟩
  · intro s1 s2 h1 h2
    obtain ⟨a1, a2, a3, _, _, _, hm1, hr1⟩ := hexToRgb_of_format h1
    obtain ⟨b1, b2, b3, _, _, _, hm2, hr2⟩ := hexToRgb_of_format h2
    constructor
    · intro he
      rw [hr1, hr2] at he
      simp only [Except.ok.injEq, Rgb.mk.injEq] at he
      obtain ⟨e1, e2, e3⟩ := he
      rw [hm1, hm2, div255_inj e1, div255_inj e2, div255_inj e3]
    · intro hm
      rw [hm1, hm2] at hm
      simp only [Option.some.injEq, Prod.mk.injEq] at hm
      obtain ⟨e1, e2, e3⟩ := hm
      rw [hr1, hr2, e1, e2, e3]
  · intro p hp hne
    fin_cases hp <;>
      first
        | exact absurd rfl hne
        | exact ⟨by with_unfolding_all decide,
            fun s hh hlow => normalizeColor_of_toLower (by decide) hh hlow
              (by decide) (by decide)⟩

/-- Witness for C5 at concrete color strings. -/
theorem c5_witness :
    isHexColorFormat "#ff0000" = true ∧
    (hexToRgb "#ff0000").isOk = true ∧
    (hexToRgb "#FF0000" = hexToRgb "ff0000" ↔ hexMatch "#FF0000" = hexMatch "ff0000") ∧
    normalizeColor "RED" = "#ff0000" ∧
    hexToRgb (normalizeColor "red") = hexToRgb "#ff0000" := by
  obtain ⟨h1, h2, h3⟩ := c5_color_resolution
  obtain ⟨n1, n2, n3, _, _, _, hm, hr, _⟩ := h1 "#ff0000" (by decide)
  have h3r := h3 ("red", "#ff0000") (by decide) (by decide)
  exact ⟨by decide, by rw [hr]; rfl, h2 "#FF0000" "ff0000" (by decide) (by decide),
    h3r.2 "RED" (by decide) (by decide), h3r.1⟩

lemma resolveFillPaint_invalid {k : ShapeKind} {s : String} (hne : s ≠ "")
    (htr : normalizeColor s ≠ "transparent") (hm : hexMatch (normalizeColor s) = none) :
    resolveFillPaint k (some s) = .error (.invalidColor (normalizeColor s)) := by
  have hstr : s ≠ "transparent" := by
    intro hse
    subst hse
    exact htr rfl
  unfold resolveFillPaint
  dsimp only
  rw [if_pos ⟨hne, hstr, rfl⟩]
  rw [if_pos htr]
  unfold hexToRgb
  rw [hm]

lemma resolveStrokePaint_invalid {k : ShapeKind} {s : String} (hne : s ≠ "")
    (hm : hexMatch (normalizeColor s) = none) :
    resolveStrokePaint k (some s) = .error (.invalidColor (normalizeColor s)) := by
  unfold resolveStrokePaint
  dsimp only
  rw [if_pos ⟨hne, rfl⟩]
  unfold hexToRgb
  rw [hm]

lemma mkBaseNode_ok_of_mem {c : ShapeConfig} (h : c.type ∈ typeNames) :
    ∃ node0, mkBaseNode c = .ok node0 := by
  simp only [typeNames, List.mem_cons, List.not_mem_nil, or_false] at h
  unfold mkBaseNode
  rcases h with h | h | h | h | h | h | h <;> rw [h] <;> simp

/-- C6 counterexample: the empty-string fill is falsy in JS, so the factory
silently skips the fill instead of raising InvalidColor and happily produces a
node, contradicting the claim at the input fill = "". -/
theorem c6_counterexample_empty_fill :
    generateShape { rect0 with fill := some "" } =
      .ok { kind := .rectangle, x := 0, y := 0, width := 10, height := 10 } := by
  with_unfolding_all decide

/-- C6 (amended): every non-empty fill value whose normalization is neither
"transparent" nor a well-formed 6-digit hex string makes generateShape fail
with InvalidColor, and likewise every non-empty stroke value whose
normalization is not well-formed hex (assuming the fill itself resolves); the
empty string is JS-falsy and is treated as an absent paint, not an error. -/
theorem c6_invalid_color_amended (c : ShapeConfig) (s : String) (hty : c.type ∈ typeNames) :
    (c.fill = some s → s ≠ "" → normalizeColor s ≠ "transparent" →
      hexMatch (normalizeColor s) = none →
      generateShape c = .error (.invalidColor (normalizeColor s))) ∧
    ((resolveFillPaint ShapeKind.rectangle c.fill).isOk = true →
      c.stroke = some s → s ≠ "" → hexMatch (normalizeColor s) = none →
      generateShape c = .error (.invalidColor (normalizeColor s))) := by
  obtain ⟨node0, hb⟩ := mkBaseNode_ok_of_mem hty
  constructor
  · intro hfill hne htr hm
    rw [generateShape_eq, hb]
    dsimp only
    rw [hfill, resolveFillPaint_invalid hne htr hm]
  · intro hfOk hstroke hne hm
    cases hf : resolveFillPaint node0.kind c.fill with
    | error e =>
      have hf2 : resolveFillPaint ShapeKind.rectangle c.fill = .error e := hf
      rw [hf2] at hfOk
      exact absurd hfOk (by simp [Except.isOk, Except.toBool])
    | ok fp =>
      rw [generateShape_eq, hb]
      dsimp only
      rw [hf]
      dsimp only
      rw [hstroke, resolveStrokePaint_invalid hne hm]

/-- Witness for C6 (amended) at the concrete invalid colors "notacolor" (fill)
and "#12" (stroke). -/
theorem c6_witness :
    ({ rect0 with fill := some "notacolor" } : ShapeConfig).type ∈ typeNames ∧
    generateShape { rect0 with fill := some "notacolor" } =
      .error (.invalidColor (normalizeColor "notacolor")) ∧
    generateShape { rect0 with stroke := some "#12" } =
      .error (.invalidColor (normalizeColor "#12")) := by
  have h1 := (c6_invalid_color_amended { rect0 with fill := some "notacolor" } "notacolor"
    (by decide)).1 rfl (by decide) (by decide) (by decide)
  have h2 := (c6_invalid_color_amended { rect0 with stroke := some "#12" } "#12"
    (by decide)).2 (by decide) rfl (by decide) (by decide)
  exact ⟨by decide, h1, h2⟩

/-- C7: evaluation at the failing input. The claim (and the spec) require
"transparent" to short-circuit to no paint for strokes as well as fills, but
the stroke path of the source has no transparent check: a stroke of
"transparent" is hex-parsed and throws InvalidColor, while the same value as a
fill is correctly skipped. -/
theorem c7_transparent_stroke_divergence :
    generateShape { rect0 with stroke := some "transparent" } =
      .error (.invalidColor "transparent") ∧
    generateShape { rect0 with fill := some "transparent" } =
      .ok { kind := .rectangle, x := 0, y := 0, width := 10, height := 10 } := by
  exact ⟨by with_unfolding_all decide, by with_unfolding_all decide⟩

/-- C8: the single-shape path and the one-element batch path are equivalent,
both at the factory level and at the message-handler level. -/
theorem c8_single_batch_equivalence (page : PageState) (c : ShapeConfig) :
    generateShapes ⟨[c]⟩ = (generateShape c).map (fun n => [n]) ∧
    handleBatchMessage page ⟨[c]⟩ = handleSingleMessage page c := by
  have hsort : sortShapes [c] = [c] := by
    rw [sortShapes]
    exact List.mergeSort_singleton c
  have hg : generateShapes ⟨[c]⟩ = (generateShape c).map (fun n => [n]) := by
    unfold generateShapes
    dsimp only
    rw [hsort]
    unfold generateShapesAux
    cases hc : generateShape c with
    | error e => rfl
    | ok n => rfl
  refine ⟨hg, ?_⟩
  unfold handleBatchMessage handleSingleMessage
  rw [hg]
  cases generateShape c with
  | error e => rfl
  | ok n => rfl

lemma kind_name_mem_typeNames (k : ShapeKind) : k.name ∈ typeNames := by
  cases k <;> simp [ShapeKind.name, typeNames]

lemma generateShape_isOk_iff (c : ShapeConfig) :
    (generateShape c).isOk = true ↔
      c.type ∈ typeNames ∧ (resolveFillPaint ShapeKind.rectangle c.fill).isOk = true ∧
      (resolveStrokePaint ShapeKind.rectangle c.stroke).isOk = true := by
  constructor
  · intro h
    obtain ⟨n, hn⟩ : ∃ n, generateShape c = .ok n := by
      cases hg : generateShape c with
      | ok n => exact ⟨n, rfl⟩
      | error e => rw [hg] at h; exact absurd h (by simp [Except.isOk, Except.toBool])
    obtain ⟨fp, sp, hfp, hsp, hname, _⟩ := generateShape_ok_fields hn
    refine ⟨?_, ?_, ?_⟩
    · rw [← hname]; exact kind_name_mem_typeNames n.kind
    · have hfp2 : resolveFillPaint ShapeKind.rectangle c.fill = .ok fp := hfp
      rw [hfp2]; rfl
    · have hsp2 : resolveStrokePaint ShapeKind.rectangle c.stroke = .ok sp := hsp
      rw [hsp2]; rfl
  · rintro ⟨hty, hfOk, hsOk⟩
    obtain ⟨node0, hb⟩ := mkBaseNode_ok_of_mem hty
    rw [generateShape_eq, hb]
    dsimp only
    cases hf : resolveFillPaint node0.kind c.fill with
    | error e =>
      have hf2 : resolveFillPaint ShapeKind.rectangle c.fill = .error e := hf
      rw [hf2] at hfOk
      exact absurd hfOk (by simp [Except.isOk, Except.toBool])
    | ok fp =>
      dsimp only
      cases hs : resolveStrokePaint node0.kind c.stroke with
      | error e =>
        have hs2 : resolveStrokePaint ShapeKind.rectangle c.stroke = .error e := hs
        rw [hs2] at hsOk
        exact absurd hsOk (by simp [Except.isOk, Except.toBool])
      | ok sp => rfl

/-- C9 counterexample: a supplied strokeWidth on a kind that does have the
strokeWeight attribute (a rectangle) is nevertheless not applied when no
stroke is supplied, because the source only sets strokeWeight inside the
stroke block; the produced node keeps its default (unset) strokeWeight. -/
theorem c9_counterexample_strokeWidth_without_stroke :
    generateShape { rect0 with strokeWidth := some 5 } =
      .ok { kind := .rectangle, x := 0, y := 0, width := 10, height := 10 } := by
  with_unfolding_all decide

/-- C9 (amended): stroke weight is applied exactly when a stroke paint was
applied and strokeWidth is truthy (the strokeWeight capability holds on all
seven kinds); corner radius is applied exactly when it is supplied and the
kind is rectangle; and neither field can ever cause the factory to fail. -/
theorem c9_attribute_application_amended (c : ShapeConfig) (n : SceneNode)
    (w r : Option ℚ) (h : generateShape c = .ok n) :
    (n.strokeWeight = if n.strokes.isSome = true ∧ truthyNum c.strokeWidth = true
                      then c.strokeWidth else none) ∧
    (n.cornerRadius = if n.kind = ShapeKind.rectangle then c.cornerRadius else none) ∧
    (generateShape { c with strokeWidth := w, cornerRadius := r }).isOk = true := by
  obtain ⟨fp, sp, hfp, hsp, hname, hx, hy, hw, hh2, hfills, hstrokes, hsw, hcr⟩ :=
    generateShape_ok_fields h
  refine ⟨?_, hcr, ?_⟩
  · rw [hsw, hstrokes]
  · rw [generateShape_isOk_iff]
    have hOk : (generateShape c).isOk = true := by rw [h]; rfl
    obtain ⟨h1, h2, h3⟩ := (generateShape_isOk_iff c).mp hOk
    exact ⟨h1, h2, h3⟩

/-- Witness for C9 (amended) at a concrete stroked rectangle. -/
theorem c9_witness :
    generateShape cfgC9w = .ok nodeC9w ∧
    (nodeC9w.strokeWeight = if nodeC9w.strokes.isSome = true ∧ truthyNum cfgC9w.strokeWidth = true
                            then cfgC9w.strokeWidth else none) ∧
    (nodeC9w.cornerRadius = if nodeC9w.kind = ShapeKind.rectangle
                            then cfgC9w.cornerRadius else none) ∧
    (generateShape { cfgC9w with strokeWidth := some 7, cornerRadius := none }).isOk = true := by
  have h0 : generateShape cfgC9w = .ok nodeC9w := by with_unfolding_all decide
  have h := c9_attribute_application_amended cfgC9w nodeC9w (some 7) none h0
  exact ⟨h0, h.1, h.2.1, h.2.2⟩

lemma truthyNum_some_zero : truthyNum (some 0) = false := by
  simp [truthyNum]

lemma truthyNum_none : truthyNum none = false := rfl

lemma generateShape_congr {c1 c2 : ShapeConfig} (hmk : mkBaseNode c1 = mkBaseNode c2)
    (hx : c1.x = c2.x) (hy : c1.y = c2.y) (hw : c1.width = c2.width)
    (hh : c1.height = c2.height) (hfill : c1.fill = c2.fill) (hstroke : c1.stroke = c2.stroke)
    (hsw : c1.strokeWidth = c2.strokeWidth ∨
      (truthyNum c1.strokeWidth = false ∧ truthyNum c2.strokeWidth = false)) :
    generateShape c1 = generateShape c2 := by
  rw [generateShape_eq, generateShape_eq, hmk, hx, hy, hw, hh, hfill, hstroke]
  rcases hsw with hsw | ⟨f1, f2⟩
  · rw [hsw]
  · cases mkBaseNode c2 with
    | error e => rfl
    | ok node0 =>
      dsimp only
      cases resolveFillPaint node0.kind c2.fill with
      | error e => rfl
      | ok fp =>
        dsimp only
        cases resolveStrokePaint node0.kind c2.stroke with
        | error e => rfl
        | ok sp =>
          dsimp only
          simp [f1, f2]

/-- C10: the optional numeric fields pointCount, innerRadius,
polygonPointCount, fontSize and strokeWidth are gated by JS truthiness, so a
supplied 0 behaves exactly like an absent field; cornerRadius alone is gated
by an explicit undefined check, so cornerRadius = 0 is applied to the node. -/
theorem c10_truthiness_gating (c : ShapeConfig) :
    generateShape { c with pointCount := some 0 } =
      generateShape { c with pointCount := none } ∧
    generateShape { c with innerRadius := some 0 } =
      generateShape { c with innerRadius := none } ∧
    generateShape { c with polygonPointCount := some 0 } =
      generateShape { c with polygonPointCount := none } ∧
    generateShape { c with fontSize := some 0 } =
      generateShape { c with fontSize := none } ∧
    generateShape { c with strokeWidth := some 0 } =
      generateShape { c with strokeWidth := none } ∧
    (∀ n, c.type = "rectangle" →
      generateShape { c with cornerRadius := some 0 } = .ok n → n.cornerRadius = some 0) := by
  refine ⟨?_, ?_, ?_, ?_, ?_, ?_⟩
  · refine generateShape_congr ?_ rfl rfl rfl rfl rfl rfl (Or.inl rfl)
    unfold mkBaseNode
    dsimp only
    simp only [truthyNum_some_zero, truthyNum_none, Bool.false_eq_true, if_false]
  · refine generateShape_congr ?_ rfl rfl rfl rfl rfl rfl (Or.inl rfl)
    unfold mkBaseNode
    dsimp only
    simp only [truthyNum_some_zero, truthyNum_none, Bool.false_eq_true, if_false]
  · refine generateShape_congr ?_ rfl rfl rfl rfl rfl rfl (Or.inl rfl)
    unfold mkBaseNode
    dsimp only
    simp only [truthyNum_some_zero, truthyNum_none, Bool.false_eq_true, if_false]
  · refine generateShape_congr ?_ rfl rfl rfl rfl rfl rfl (Or.inl rfl)
    unfold mkBaseNode
    dsimp only
    simp only [truthyNum_some_zero, truthyNum_none, Bool.false_eq_true, if_false]
  · exact generateShape_congr rfl rfl rfl rfl rfl rfl rfl
      (Or.inr ⟨truthyNum_some_zero, truthyNum_none⟩)
  · intro n hty h
    obtain ⟨fp, sp, hfp, hsp, hname, hx, hy, hw, hh2, hfills, hstrokes, hsw, hcr⟩ :=
      generateShape_ok_fields h
    have hkind : n.kind = ShapeKind.rectangle := by
      have : n.kind.name = "rectangle" := by
        rw [hname]
        exact hty
      cases hk : n.kind <;> rw [hk] at this <;> simp_all [ShapeKind.name]
    rw [hcr, if_pos hkind]

/-- Witness for C10 at concrete configurations. -/
theorem c10_witness :
    generateShape { rect0 with pointCount := some 0 } =
      generateShape { rect0 with pointCount := none } ∧
    rect0.type = "rectangle" ∧
    generateShape { rect0 with cornerRadius := some 0 } = .ok nodeRectCr0 ∧
    nodeRectCr0.cornerRadius = some 0 := by
  have h := c10_truthiness_gating rect0
  have h0 : generateShape { rect0 with cornerRadius := some 0 } = .ok nodeRectCr0 := by
    with_unfolding_all decide
  exact ⟨h.1, rfl, h0, h.2.2.2.2.2 nodeRectCr0 rfl h0⟩

end FigmaPlugin
